import Mathlib

/-!
Shallow embedding of the bladvak application shell (Rust crate) in Lean 4.

Modelled modules:
- src/errors.rs: AppError, ErrorManager
- src/file_handler.rs: File, FileHandler, FileState, the per-frame poll
- src/app.rs: PanelOpen, PanelState, BladvakSavedState, reconciliation in
  try_new_with_args, central_panel window demotion, side_panel gating
- src/settings.rs: Settings, SelectedSetting, show_error_manager

Conventions: byte buffers are List Nat, paths are String, the BTreeMap of
panel states is a key-ordered association list with BTreeMap-style insert
and lookup.  The compile-time native/web split is a Boolean parameter
is_wasm; the filesystem read used on native is a parameter
fs : String -> Except AppError (List Nat).  A poll-promise is modelled by
its ready view: none while pending, some r once resolved.
-/

namespace Bladvak

/-! ## errors.rs -/

/-- Rust enum ErrorType: Normal or Fake (fake errors model transient,
non-failure outcomes such as a cancelled dialog). -/
inductive ErrorType
  | Normal
  | Fake
deriving DecidableEq

/-- Rust struct AppError.  The chained source error is modelled by its
display string. -/
structure AppError where
  message : String
  source : Option String
  error_type : ErrorType
deriving DecidableEq

/-- AppError::new -/
def AppError.new (message : String) : AppError :=
  { message := message, source := none, error_type := ErrorType.Normal }

/-- AppError::new_fake -/
def AppError.new_fake (message : String) : AppError :=
  { message := message, source := none, error_type := ErrorType.Fake }

/-- AppError::is_fake -/
def AppError.is_fake (e : AppError) : Bool :=
  match e.error_type with
  | ErrorType.Fake => true
  | ErrorType.Normal => false

/-- Rust struct ErrorManager: the error queue plus the two visibility
booleans of the overlay window. -/
structure ErrorManager where
  errors : List AppError
  is_open : Bool
  was_open : Bool
deriving DecidableEq

/-- ErrorManager::new / Default: empty queue, closed, not previously open. -/
def ErrorManager.new : ErrorManager :=
  { errors := [], is_open := false, was_open := false }

/-- ErrorManager::add_error: fake (transient) errors are dropped, others are
pushed at the back of the queue. -/
def ErrorManager.add_error (em : ErrorManager) (e : AppError) : ErrorManager :=
  if e.is_fake then em else { em with errors := em.errors ++ [e] }

/-- Bladvak::show_error_manager (settings.rs lines 55-71), as a pure state
transformer.  user_closes is true when the user clicks the close button of
the egui window this frame; egui only lets that happen while the window is
shown, i.e. while is_open is true. -/
def show_error_manager (em : ErrorManager) (user_closes : Bool) : ErrorManager :=
  let em1 := if !em.was_open && !em.errors.isEmpty then { em with is_open := true } else em
  let em2 := if em1.is_open && user_closes then { em1 with is_open := false } else em1
  let em3 := if !em2.is_open then { em2 with errors := [] } else em2
  { em3 with was_open := em3.is_open }

/-- One frame of the driver as far as the error queue is concerned: the
errors recorded during the frame are appended (via add_error), then the
overlay renders. -/
structure FrameInput where
  new_errors : List AppError
  user_closes : Bool
deriving DecidableEq

/-- Record all errors of a frame, in order. -/
def record_all (em : ErrorManager) (l : List AppError) : ErrorManager :=
  l.foldl ErrorManager.add_error em

/-- One full frame: record the errors raised this frame, then render the
overlay. -/
def frame (em : ErrorManager) (inp : FrameInput) : ErrorManager :=
  show_error_manager (record_all em inp.new_errors) inp.user_closes

/-- The is_open value observed after each successive frame. -/
def openTrace (em : ErrorManager) : List FrameInput → List Bool
  | [] => []
  | inp :: rest =>
    let em2 := frame em inp
    em2.is_open :: openTrace em2 rest

/-- Number of closed-to-open transitions along a Boolean trace, given the
value before the first sample. -/
def countRises : Bool → List Bool → Nat
  | _, [] => 0
  | prev, b :: rest => (if prev = false ∧ b = true then 1 else 0) + countRises b rest

/-! ## file_handler.rs -/

/-- Rust struct File: raw bytes plus the path or filename they came from. -/
structure File where
  data : List Nat
  path : String
deriving DecidableEq

/-- egui DroppedFile, restricted to the fields the handler reads: an
optional filesystem path (native), a display name, and optional in-memory
bytes (web). -/
structure DroppedFile where
  path : Option String
  name : String
  bytes : Option (List Nat)
deriving DecidableEq

/-- Rust enum FileState. -/
inductive FileState
  | NotSelected
  | UploadedOrSelected
  | NoUpload
  | Ready (f : File)
deriving DecidableEq

/-- A poll-promise holding Result of FileState, seen through ready():
none while the background task still runs, some r once it resolved. -/
abbrev PromiseView : Type := Option (Except AppError FileState)

/-- Rust struct FileHandler: the queue of dropped files and the at most
one outstanding dialog request. -/
structure FileHandler where
  dropped_files : List DroppedFile
  file_upload : Option PromiseView

/-- FileHandler::default: no drops queued, no dialog request outstanding. -/
def FileHandler.new : FileHandler :=
  { dropped_files := [], file_upload := none }

/-- FileHandler::reset: forget the outstanding dialog request. -/
def FileHandler.reset (fh : FileHandler) : FileHandler :=
  { fh with file_upload := none }

/-- FileHandler::handle_file_upload: classify the dialog slot.  Reads the
state only (the Rust method takes mut self but never writes). -/
def FileHandler.handle_file_upload (fh : FileHandler) : Except AppError FileState :=
  match fh.file_upload with
  | some result =>
    match result with
    | some (Except.ok state) => Except.ok state
    | some (Except.error e) => Except.error e
    | none => Except.ok FileState.UploadedOrSelected
  | none => Except.ok FileState.NoUpload

/-- FileHandler::handle_file_dropped: pop the first queued drop, then read
it: on native from its path through fs (no path means the drop is silently
lost), on web from its in-memory bytes. -/
def FileHandler.handle_file_dropped (is_wasm : Bool)
    (fs : String → Except AppError (List Nat)) (fh : FileHandler) :
    Except AppError (Option File) × FileHandler :=
  match fh.dropped_files with
  | [] => (Except.ok none, fh)
  | file :: rest =>
    let fh2 : FileHandler := { fh with dropped_files := rest }
    if !is_wasm then
      match file.path with
      | some path =>
        match fs path with
        | Except.ok buf => (Except.ok (some { data := buf, path := path }), fh2)
        | Except.error e => (Except.error e, fh2)
      | none => (Except.ok none, fh2)
    else
      match file.bytes with
      | some buf =>
        (Except.ok (some { data := buf, path := file.path.getD file.name }), fh2)
      | none => (Except.ok none, fh2)

/-- The ctx.input ingestion step at the top of handle_files: a non-empty
raw dropped-files list replaces the queue wholesale (clone_from). -/
def FileHandler.ingest (input : List DroppedFile) (fh : FileHandler) : FileHandler :=
  if input.isEmpty then fh else { fh with dropped_files := input }

/-- FileHandler::handle_files: the per-frame poll.  Ingest this frame's
raw drops, resolve the dialog slot first, and only fall through to the
drop queue when the slot is (or has just become) empty. -/
def FileHandler.handle_files (is_wasm : Bool)
    (fs : String → Except AppError (List Nat)) (input : List DroppedFile)
    (fh : FileHandler) : Except AppError (Option File) × FileHandler :=
  let fh := fh.ingest input
  match fh.handle_file_upload with
  | Except.ok state =>
    match state with
    | FileState.NotSelected => FileHandler.handle_file_dropped is_wasm fs fh.reset
    | FileState.UploadedOrSelected => (Except.ok none, fh)
    | FileState.Ready data => (Except.ok (some data), fh.reset)
    | FileState.NoUpload => FileHandler.handle_file_dropped is_wasm fs fh.reset
  | Except.error e => (Except.error e, fh.reset)

/-! ## app.rs and settings.rs: panels, layout state, settings -/

/-- Rust enum PanelOpen.  Default is AsWindows. -/
inductive PanelOpen
  | AsWindows
  | AsSideBar
  | None
deriving DecidableEq

/-- Rust struct PanelState.  The Rust field is named open, a Lean keyword,
so it is called open_st here. -/
structure PanelState where
  open_st : PanelOpen
deriving DecidableEq

/-- PanelState::default: placement AsWindows. -/
def PanelState.default : PanelState :=
  { open_st := PanelOpen.AsWindows }

/-- A registered panel, restricted to what the shell reads from the
BladvakPanel trait object: its name and its two capability flags. -/
structure Panel where
  name : String
  has_ui : Bool
  has_settings : Bool
deriving DecidableEq

/-- Rust enum SelectedSetting. -/
inductive SelectedSetting
  | General
  | Panel
  | Str (s : String)
deriving DecidableEq

/-- Rust struct Settings.  The Rust field open is called open_modal here;
the f32 value 200.0 of min_width_sidebar is exactly representable and is
modelled as the natural number 200 (it is only stored, never computed
with). -/
structure Settings where
  open_modal : Bool
  min_width_sidebar : Nat
  right_panel : Bool
  show_inspection : Bool
  selected_setting : SelectedSetting
deriving DecidableEq

/-- Settings::default (settings.rs lines 38-48). -/
def Settings.default : Settings :=
  { open_modal := false
    min_width_sidebar := 200
    right_panel := true
    show_inspection := false
    selected_setting := SelectedSetting.General }

/-- The panel-state map: BTreeMap of String to PanelState as a key-ordered
association list. -/
abbrev PanelMap : Type := List (String × PanelState)

/-- BTreeMap::insert, keeping keys sorted and replacing an existing key. -/
def btreeInsert (k : String) (v : PanelState) : PanelMap → PanelMap
  | [] => [(k, v)]
  | (k2, v2) :: rest =>
    if k < k2 then (k, v) :: (k2, v2) :: rest
    else if k = k2 then (k, v) :: rest
    else (k2, v2) :: btreeInsert k v rest

/-- BTreeMap::get. -/
def btreeGet (k : String) : PanelMap → Option PanelState
  | [] => none
  | (k2, v) :: rest => if k = k2 then some v else btreeGet k rest

/-- Rust struct BladvakSavedState: the persisted shell settings plus the
panel layout map. -/
structure BladvakSavedState where
  settings : Settings
  panel_state : PanelMap

/-- The fresh panel map built in the else branch of try_new_with_args:
every registered panel inserted with the default state. -/
def fresh_panel_state (panel_list : List Panel) : PanelMap :=
  panel_list.foldl (fun m p => btreeInsert p.name PanelState.default m) []

/-- The reconciliation step of Bladvak::try_new_with_args (app.rs lines
152-167): reuse the persisted state verbatim when it exists and its entry
count equals the fresh panel count, otherwise rebuild everything with
default settings and every panel defaulted. -/
def build_internal (saved : Option BladvakSavedState) (panel_list : List Panel) :
    BladvakSavedState :=
  match saved with
  | some s =>
    if s.panel_state.length = panel_list.length then s
    else { settings := Settings.default, panel_state := fresh_panel_state panel_list }
  | none => { settings := Settings.default, panel_state := fresh_panel_state panel_list }

/-- The guard inside Bladvak::side_panel (app.rs lines 234-239): does any
entry of the layout map sit in the sidebar. -/
def is_panels_in_sidebar (panel_state : PanelMap) : Bool :=
  panel_state.any fun e => decide (e.2.open_st = PanelOpen.AsSideBar)

/-- Whether a frame of Bladvak::update renders the side region: update
calls side_panel only when the host app reports is_side_panel, and
side_panel itself shows the region only when some panel sits in the
sidebar. -/
def update_shows_side_region (is_side_panel : Bool) (st : BladvakSavedState) : Bool :=
  if is_side_panel then is_panels_in_sidebar st.panel_state else false

/-- One iteration of the panel loop in Bladvak::central_panel (app.rs
lines 187-202): a panel with has_ui whose state is AsWindows shows a
floating window; if the user closed it this frame (closed of its name),
the placement becomes AsSideBar. -/
def central_panel_visit (closed : String → Bool) (acc : PanelMap) (p : Panel) : PanelMap :=
  if p.has_ui then
    match btreeGet p.name acc with
    | some ps =>
      match ps.open_st with
      | PanelOpen.AsWindows =>
        if closed p.name then
          btreeInsert p.name { open_st := PanelOpen.AsSideBar } acc
        else acc
      | _ => acc
    | none => acc
  else acc

/-- The layout-state effect of one frame of Bladvak::central_panel
(app.rs lines 178-204): the loop over the registered panels. -/
def central_panel_step (panel_list : List Panel) (closed : String → Bool)
    (st : PanelMap) : PanelMap :=
  panel_list.foldl (central_panel_visit closed) st

/-! ## Helper lemmas: error overlay state machine -/

/-- Normal form of the is_open flag after one overlay render. -/
theorem show_error_manager_is_open (em : ErrorManager) (u : Bool) :
    (show_error_manager em u).is_open =
      ((em.is_open || (!em.was_open && !em.errors.isEmpty)) && !u) := by
  unfold show_error_manager
  cases h1 : em.was_open <;> cases h2 : em.is_open <;>
    cases h3 : em.errors.isEmpty <;> cases h4 : u <;> simp [h1, h2, h3, h4]

/-- Normal form of the was_open flag after one overlay render: it records
the final is_open value. -/
theorem show_error_manager_was_open (em : ErrorManager) (u : Bool) :
    (show_error_manager em u).was_open = (show_error_manager em u).is_open := by
  unfold show_error_manager
  cases h1 : em.was_open <;> cases h2 : em.is_open <;>
    cases h3 : em.errors.isEmpty <;> cases h4 : u <;> simp [h1, h2, h3, h4]

/-- The queue after one overlay render: kept while the window stays open,
cleared as soon as it ends the frame closed. -/
theorem show_error_manager_errors (em : ErrorManager) (u : Bool) :
    (show_error_manager em u).errors =
      if (show_error_manager em u).is_open = true then em.errors else [] := by
  unfold show_error_manager
  cases h1 : em.was_open <;> cases h2 : em.is_open <;>
    cases h3 : em.errors.isEmpty <;> cases h4 : u <;> simp [h1, h2, h3, h4]

/-- ErrorManager.add_error as an append of a filtered singleton. -/
theorem add_error_spec (em : ErrorManager) (e : AppError) :
    em.add_error e = { em with errors := em.errors ++ if e.is_fake then [] else [e] } := by
  unfold ErrorManager.add_error
  cases h : e.is_fake <;> simp [h]

/-- record_all appends exactly the non-fake errors, in order. -/
theorem record_all_spec (l : List AppError) (em : ErrorManager) :
    record_all em l = { em with errors := em.errors ++ l.filter (fun e => !e.is_fake) } := by
  induction l generalizing em with
  | nil => simp [record_all]
  | cons e rest ih =>
    have step : record_all em (e :: rest) = record_all (em.add_error e) rest := rfl
    rw [step, ih, add_error_spec]
    cases h : e.is_fake <;> simp [h, List.filter_cons]

/-- A list of fake errors contributes nothing to the visible queue. -/
theorem filter_nonfake_nil (l : List AppError) (h : ∀ e ∈ l, e.is_fake = true) :
    l.filter (fun e => !e.is_fake) = [] := by
  induction l with
  | nil => rfl
  | cons e rest ih =>
    have he : e.is_fake = true := h e (by simp)
    simp [List.filter_cons, he, ih fun x hx => h x (by simp [hx])]

/-- A frame that records only fake errors, starting from the pristine
manager, leaves the manager pristine. -/
theorem frame_quiet (inp : FrameInput) (hfake : ∀ e ∈ inp.new_errors, e.is_fake = true) :
    frame ErrorManager.new inp = ErrorManager.new := by
  unfold frame
  rw [record_all_spec, filter_nonfake_nil _ hfake]
  simp [ErrorManager.new, show_error_manager]

/-- Once the overlay is open, a frame in which the user does not close it
keeps it open. -/
theorem frame_open_stays (em : ErrorManager) (inp : FrameInput)
    (ho : em.is_open = true) (hu : inp.user_closes = false) :
    (frame em inp).is_open = true := by
  unfold frame
  rw [show_error_manager_is_open, record_all_spec]
  simp [ho, hu]

/-- A frame from the pristine manager that records a real (non-fake)
error auto-opens the overlay. -/
theorem frame_ignites (inp : FrameInput) (hu : inp.user_closes = false)
    (hne : ∃ e ∈ inp.new_errors, e.is_fake = false) :
    (frame ErrorManager.new inp).is_open = true := by
  unfold frame
  rw [show_error_manager_is_open, record_all_spec]
  obtain ⟨e, he, hf⟩ := hne
  have hmem : e ∈ inp.new_errors.filter (fun e => !e.is_fake) :=
    List.mem_filter.mpr ⟨he, by simp [hf]⟩
  have hne2 : (inp.new_errors.filter (fun e => !e.is_fake)).isEmpty = false := by
    cases hl : inp.new_errors.filter (fun e => !e.is_fake) with
    | nil => rw [hl] at hmem; exact absurd hmem (List.not_mem_nil e)
    | cons a t => rfl
  simp [ErrorManager.new, hu, hne2]

/-- While the overlay is open and the user never closes it, the trace
shows no further closed-to-open rise. -/
theorem countRises_zero_of_open (inputs : List FrameInput) :
    ∀ em : ErrorManager, em.is_open = true →
      (∀ i ∈ inputs, i.user_closes = false) →
      countRises true (openTrace em inputs) = 0 := by
  induction inputs with
  | nil => intro em _ _; rfl
  | cons i rest ih =>
    intro em ho hc
    have hu : i.user_closes = false := hc i (by simp)
    have h2 : (frame em i).is_open = true := frame_open_stays em i ho hu
    simp only [openTrace, countRises, h2]
    rw [ih (frame em i) h2 fun j hj => hc j (by simp [hj])]
    simp

/-! ## Claims C3 and C4 -/

/-- Claim C3: whenever the error overlay goes from open to closed within a
frame, the entire error queue is cleared: if is_open was true before the
overlay rendered and is false afterwards, the recorded error list is
empty, however many errors had accumulated. -/
theorem claim_C3_dismiss_clears_queue (em : ErrorManager) (u : Bool)
    (_hopen : em.is_open = true)
    (hclosed : (show_error_manager em u).is_open = false) :
    (show_error_manager em u).errors = [] := by
  rw [show_error_manager_errors, hclosed]
  simp

/-- Witness for C3 at a concrete dismissal: an overlay holding one error,
open and already shown, closed by the user this frame. -/
theorem claim_C3_dismiss_clears_queue_witness :
    (show_error_manager
        { errors := [AppError.new "boom"], is_open := true, was_open := true }
        true).errors = [] :=
  claim_C3_dismiss_clears_queue
    { errors := [AppError.new "boom"], is_open := true, was_open := true }
    true rfl rfl

/-- Claim C4: starting from the pristine manager, for every frame sequence
in which at least one recorded error is non-transient and the user never
closes the overlay, the overlay observes exactly one closed-to-open
transition: it auto-opens on the first frame whose queue is non-empty and
stays open afterwards. -/
theorem claim_C4_auto_open_once (inputs : List FrameInput)
    (hc : ∀ i ∈ inputs, i.user_closes = false)
    (hne : ∃ i ∈ inputs, ∃ e ∈ i.new_errors, e.is_fake = false) :
    countRises false (openTrace ErrorManager.new inputs) = 1 := by
  induction inputs with
  | nil => simp at hne
  | cons i rest ih =>
    have hu : i.user_closes = false := hc i (by simp)
    by_cases hAll : ∀ e ∈ i.new_errors, e.is_fake = true
    · have hq : frame ErrorManager.new i = ErrorManager.new := frame_quiet i hAll
      have hone : ∃ j ∈ rest, ∃ e ∈ j.new_errors, e.is_fake = false := by
        obtain ⟨j, hj, e, hje, hf⟩ := hne
        rcases List.mem_cons.mp hj with hji | hjr
        · exact absurd (hAll e (hji ▸ hje)) (by simp [hf])
        · exact ⟨j, hjr, e, hje, hf⟩
      simp only [openTrace, hq]
      have hhead : ErrorManager.new.is_open = false := rfl
      simp only [countRises, hhead]
      rw [ih (fun j hj => hc j (by simp [hj])) hone]
      simp
    · have hsome : ∃ e ∈ i.new_errors, e.is_fake = false := by
        push_neg at hAll
        obtain ⟨e, he, hf⟩ := hAll
        exact ⟨e, he, by cases hfe : e.is_fake with
          | true => exact absurd hfe hf
          | false => rfl⟩
      have hopen : (frame ErrorManager.new i).is_open = true := frame_ignites i hu hsome
      simp only [openTrace, countRises, hopen]
      rw [countRises_zero_of_open rest (frame ErrorManager.new i) hopen
        fun j hj => hc j (by simp [hj])]
      simp

/-- Witness for C4 at a concrete batch: a fake error first, then a real
one, then a silent frame; the overlay rises exactly once. -/
theorem claim_C4_auto_open_once_witness :
    countRises false
      (openTrace ErrorManager.new
        [ { new_errors := [AppError.new_fake "cancel"], user_closes := false },
          { new_errors := [AppError.new "boom"], user_closes := false },
          { new_errors := [], user_closes := false } ]) = 1 :=
  claim_C4_auto_open_once
    [ { new_errors := [AppError.new_fake "cancel"], user_closes := false },
      { new_errors := [AppError.new "boom"], user_closes := false },
      { new_errors := [], user_closes := false } ]
    (by decide) (by decide)

/-! ## Helper lemmas: the BTreeMap model -/

/-- Looking up the key just inserted yields the inserted value. -/
theorem btreeGet_insert_self (k : String) (v : PanelState) (m : PanelMap) :
    btreeGet k (btreeInsert k v m) = some v := by
  induction m with
  | nil => simp [btreeInsert, btreeGet]
  | cons kv rest ih =>
    obtain ⟨k2, v2⟩ := kv
    by_cases h1 : k < k2
    · simp [btreeInsert, h1, btreeGet]
    · by_cases h2 : k = k2
      · simp [btreeInsert, h1, h2, btreeGet]
      · simp [btreeInsert, h1, h2, btreeGet, ih]

/-- Inserting a different key does not change a lookup. -/
theorem btreeGet_insert_other (k k2 : String) (v : PanelState) (m : PanelMap)
    (h : k ≠ k2) : btreeGet k (btreeInsert k2 v m) = btreeGet k m := by
  induction m with
  | nil => simp [btreeInsert, btreeGet, h]
  | cons kv rest ih =>
    obtain ⟨k3, v3⟩ := kv
    by_cases h1 : k2 < k3
    · simp [btreeInsert, h1, btreeGet, h]
    · by_cases h2 : k2 = k3
      · subst h2
        simp [btreeInsert, h1, btreeGet, h]
      · by_cases h3 : k = k3
        · simp [btreeInsert, h1, h2, btreeGet, h3]
        · simp [btreeInsert, h1, h2, btreeGet, h3, ih]

/-- Folding btreeInsert of one fixed value over a panel list: any key that
already maps to that value, or that names one of the panels, maps to that
value afterwards. -/
theorem fold_insert_get (v : PanelState) (l : List Panel) :
    ∀ (m : PanelMap) (k : String),
      (btreeGet k m = some v ∨ k ∈ l.map Panel.name) →
      btreeGet k (l.foldl (fun m p => btreeInsert p.name v m) m) = some v := by
  induction l with
  | nil =>
    intro m k h
    rcases h with h | h
    · simpa using h
    · simp at h
  | cons p rest ih =>
    intro m k h
    simp only [List.foldl_cons]
    apply ih
    by_cases hk : k = p.name
    · left
      rw [hk]
      exact btreeGet_insert_self p.name v m
    · rcases h with h | h
      · left
        rw [btreeGet_insert_other k p.name v m hk]
        exact h
      · right
        simp only [List.map_cons, List.mem_cons] at h
        rcases h with h | h
        · exact absurd h hk
        · simpa using h

/-- Every registered panel is present in the freshly built map, with the
default state. -/
theorem fresh_panel_state_get (panel_list : List Panel) (p : Panel)
    (hp : p ∈ panel_list) :
    btreeGet p.name (fresh_panel_state panel_list) = some PanelState.default :=
  fold_insert_get PanelState.default panel_list [] p.name
    (Or.inr (List.mem_map_of_mem Panel.name hp))

/-! ## Claims C1 and C9 -/

/-- Claim C1: on shell construction, a persisted state whose panel-state
map has exactly as many entries as the fresh panel list is reused verbatim
(every placement unchanged); when the counts differ, or there is no
persisted state, a fresh map is built in which every registered panel maps
to the default placement AsWindows. -/
theorem claim_C1_layout_reconciliation (panel_list : List Panel) :
    (∀ s : BladvakSavedState, s.panel_state.length = panel_list.length →
      build_internal (some s) panel_list = s) ∧
    (∀ s : BladvakSavedState, s.panel_state.length ≠ panel_list.length →
      ∀ p ∈ panel_list,
        btreeGet p.name (build_internal (some s) panel_list).panel_state =
          some { open_st := PanelOpen.AsWindows }) ∧
    (∀ p ∈ panel_list,
      btreeGet p.name (build_internal none panel_list).panel_state =
        some { open_st := PanelOpen.AsWindows }) := by
  refine ⟨fun s h => by simp [build_internal, h], fun s h p hp => ?_, fun p hp => ?_⟩
  · simp only [build_internal, if_neg h]
    exact fresh_panel_state_get panel_list p hp
  · simp only [build_internal]
    exact fresh_panel_state_get panel_list p hp

/-- Witness for C1: a one-entry persisted map with a non-default placement
is reused verbatim against a one-panel registry, and a fresh build from no
persisted state defaults the panel to AsWindows. -/
theorem claim_C1_layout_reconciliation_witness :
    build_internal
        (some { settings := Settings.default,
                panel_state := [("Log", { open_st := PanelOpen.AsSideBar })] })
        [{ name := "Log", has_ui := true, has_settings := false }] =
      { settings := Settings.default,
        panel_state := [("Log", { open_st := PanelOpen.AsSideBar })] } ∧
    btreeGet "Log"
        (build_internal none
          [{ name := "Log", has_ui := true, has_settings := false }]).panel_state =
      some { open_st := PanelOpen.AsWindows } :=
  ⟨(claim_C1_layout_reconciliation
      [{ name := "Log", has_ui := true, has_settings := false }]).1
      { settings := Settings.default,
        panel_state := [("Log", { open_st := PanelOpen.AsSideBar })] } rfl,
   (claim_C1_layout_reconciliation
      [{ name := "Log", has_ui := true, has_settings := false }]).2.2
      { name := "Log", has_ui := true, has_settings := false } (by simp)⟩

/-- Claim C9: when the persisted entry count does not match the fresh
panel count, the rebuilt internal state also resets the whole shell
Settings to its defaults: modal closed, sidebar minimum width 200, debug
overlay off, selected-setting cursor back to General. -/
theorem claim_C9_settings_reset (s : BladvakSavedState) (panel_list : List Panel)
    (h : s.panel_state.length ≠ panel_list.length) :
    (build_internal (some s) panel_list).settings = Settings.default ∧
    Settings.default.open_modal = false ∧
    Settings.default.min_width_sidebar = 200 ∧
    Settings.default.show_inspection = false ∧
    Settings.default.selected_setting = SelectedSetting.General := by
  refine ⟨?_, rfl, rfl, rfl, rfl⟩
  simp [build_internal, h]

/-- Witness for C9: a one-entry persisted map, with every settings field
away from its default, rebuilt against an empty registry. -/
theorem claim_C9_settings_reset_witness :
    (build_internal
        (some { settings := { open_modal := true, min_width_sidebar := 7,
                              right_panel := false, show_inspection := true,
                              selected_setting := SelectedSetting.Str "Log" },
                panel_state := [("Log", { open_st := PanelOpen.AsSideBar })] })
        []).settings = Settings.default :=
  (claim_C9_settings_reset
    { settings := { open_modal := true, min_width_sidebar := 7,
                    right_panel := false, show_inspection := true,
                    selected_setting := SelectedSetting.Str "Log" },
      panel_state := [("Log", { open_st := PanelOpen.AsSideBar })] }
    [] (by decide)).1

/-! ## Helper lemmas: file pipeline -/

/-- Ingesting raw drops never touches the dialog slot. -/
theorem ingest_file_upload (input : List DroppedFile) (fh : FileHandler) :
    (fh.ingest input).file_upload = fh.file_upload := by
  unfold FileHandler.ingest
  split <;> rfl

/-- Popping a drop leaves the rest of the queue and the dialog slot as
they were, whatever the read outcome. -/
theorem handle_file_dropped_state (is_wasm : Bool)
    (fs : String → Except AppError (List Nat)) (d : DroppedFile)
    (ds : List DroppedFile) (u : Option PromiseView) :
    (FileHandler.handle_file_dropped is_wasm fs
        { dropped_files := d :: ds, file_upload := u }).2 =
      { dropped_files := ds, file_upload := u } := by
  cases is_wasm with
  | false =>
    cases hp : d.path with
    | none => simp [FileHandler.handle_file_dropped, hp]
    | some p =>
      cases hfs : fs p with
      | ok b => simp [FileHandler.handle_file_dropped, hp, hfs]
      | error e => simp [FileHandler.handle_file_dropped, hp, hfs]
  | true =>
    cases hb : d.bytes with
    | none => simp [FileHandler.handle_file_dropped, hb]
    | some b => simp [FileHandler.handle_file_dropped, hb]

/-! ## Claims C2, C5, C8, C10 -/

/-- Claim C2, amended: per-frame poll priority.  If the outstanding dialog
request is ready with a file, that file is returned and the slot is
cleared; if ready with an error, the error is returned and the slot is
cleared; if outstanding but not ready, the poll returns no file this frame
and the whole post-ingestion state, queued drops included, is left
untouched for a later frame; if ready with the transient not-selected
outcome (cancelled dialog), the slot is cleared and the poll falls through
to the dropped-files queue within the same frame.  Only in the cancelled
case and when no request is outstanding are dropped files consulted. -/
theorem claim_C2_poll_priority (is_wasm : Bool)
    (fs : String → Except AppError (List Nat)) (input : List DroppedFile)
    (fh : FileHandler) :
    (∀ f : File, fh.file_upload = some (some (Except.ok (FileState.Ready f))) →
      FileHandler.handle_files is_wasm fs input fh =
        (Except.ok (some f), { fh.ingest input with file_upload := none })) ∧
    (∀ e : AppError, fh.file_upload = some (some (Except.error e)) →
      FileHandler.handle_files is_wasm fs input fh =
        (Except.error e, { fh.ingest input with file_upload := none })) ∧
    (fh.file_upload = some none →
      FileHandler.handle_files is_wasm fs input fh = (Except.ok none, fh.ingest input)) ∧
    (fh.file_upload = some (some (Except.ok FileState.NotSelected)) →
      FileHandler.handle_files is_wasm fs input fh =
        FileHandler.handle_file_dropped is_wasm fs
          { fh.ingest input with file_upload := none }) := by
  refine ⟨fun f h => ?_, fun e h => ?_, fun h => ?_, fun h => ?_⟩ <;>
    simp only [FileHandler.handle_files, FileHandler.handle_file_upload,
      FileHandler.reset, ingest_file_upload, h]

/-- Witness for C2 at concrete slots: a ready file is delivered and the
drop stays queued; a pending request yields nothing and the drop stays
queued. -/
theorem claim_C2_poll_priority_witness :
    FileHandler.handle_files true (fun _ => Except.error (AppError.new "nofs")) []
        { dropped_files := [{ path := none, name := "b.bin", bytes := some [2] }],
          file_upload := some (some (Except.ok (FileState.Ready { data := [5], path := "a.bin" }))) } =
      (Except.ok (some { data := [5], path := "a.bin" }),
        { dropped_files := [{ path := none, name := "b.bin", bytes := some [2] }],
          file_upload := none }) ∧
    FileHandler.handle_files true (fun _ => Except.error (AppError.new "nofs")) []
        { dropped_files := [{ path := none, name := "b.bin", bytes := some [2] }],
          file_upload := some none } =
      (Except.ok none,
        { dropped_files := [{ path := none, name := "b.bin", bytes := some [2] }],
          file_upload := some none }) :=
  ⟨(claim_C2_poll_priority true (fun _ => Except.error (AppError.new "nofs")) []
      { dropped_files := [{ path := none, name := "b.bin", bytes := some [2] }],
        file_upload := some (some (Except.ok (FileState.Ready { data := [5], path := "a.bin" }))) }).1
      { data := [5], path := "a.bin" } rfl,
   (claim_C2_poll_priority true (fun _ => Except.error (AppError.new "nofs")) []
      { dropped_files := [{ path := none, name := "b.bin", bytes := some [2] }],
        file_upload := some none }).2.2.1 rfl⟩

/-- Counterexample to C2 as stated: with a dialog request outstanding
(slot occupied, resolved to the transient not-selected outcome) and one
drop queued, the poll returns the dropped file in that very frame — so
dropped files are consulted while a dialog request is outstanding, and the
outstanding ready result is not what is returned. -/
theorem claim_C2_counterexample :
    ({ dropped_files := [{ path := none, name := "drop.bin", bytes := some [9] }],
       file_upload := some (some (Except.ok FileState.NotSelected)) } :
        FileHandler).file_upload ≠ none ∧
    (FileHandler.handle_files true (fun _ => Except.error (AppError.new "nofs")) []
        { dropped_files := [{ path := none, name := "drop.bin", bytes := some [9] }],
          file_upload := some (some (Except.ok FileState.NotSelected)) }).1 =
      Except.ok (some { data := [9], path := "drop.bin" }) :=
  ⟨by simp, rfl⟩

/-- Claim C8: with no dialog request outstanding and an empty drop queue,
a poll with no new drops returns no file, raises no error, and leaves the
pipeline state exactly as it was; repeated polls are therefore no-ops. -/
theorem claim_C8_idle_poll_noop (is_wasm : Bool)
    (fs : String → Except AppError (List Nat)) (fh : FileHandler)
    (hu : fh.file_upload = none) (hd : fh.dropped_files = []) :
    FileHandler.handle_files is_wasm fs [] fh = (Except.ok none, fh) := by
  obtain ⟨d, u⟩ := fh
  simp only at hu hd
  subst hu
  subst hd
  rfl

/-- Witness for C8: the pristine handler polled with nothing pending. -/
theorem claim_C8_idle_poll_noop_witness :
    FileHandler.handle_files false (fun _ => Except.ok []) [] FileHandler.new =
      (Except.ok none, FileHandler.new) :=
  claim_C8_idle_poll_noop false (fun _ => Except.ok []) FileHandler.new rfl rfl

/-- Claim C10: on the native target, a queued dropped file that carries no
filesystem path is removed from the queue while the poll returns neither a
file nor an error: the drop is silently consumed and cannot be returned by
any later poll. -/
theorem claim_C10_pathless_drop_lost
    (fs : String → Except AppError (List Nat)) (f : DroppedFile)
    (rest : List DroppedFile) (hp : f.path = none) :
    FileHandler.handle_files false fs []
        { dropped_files := f :: rest, file_upload := none } =
      (Except.ok none, { dropped_files := rest, file_upload := none }) := by
  unfold FileHandler.handle_files FileHandler.ingest FileHandler.handle_file_upload
    FileHandler.reset FileHandler.handle_file_dropped
  simp [hp]

/-- Witness for C10: one pathless drop, consumed without a result. -/
theorem claim_C10_pathless_drop_lost_witness :
    FileHandler.handle_files false (fun _ => Except.ok [])
        []
        { dropped_files := [{ path := none, name := "web-only.bin", bytes := some [3] }],
          file_upload := none } =
      (Except.ok none, { dropped_files := [], file_upload := none }) :=
  claim_C10_pathless_drop_lost (fun _ => Except.ok [])
    { path := none, name := "web-only.bin", bytes := some [3] } [] rfl

/-! ## Claim C5 -/

/-- Claim C5, amended: when the drop queue (after ingesting this frame's
raw drops) holds several files and no dialog request is outstanding, the
poll reads only the first queued file; the additional files are not
discarded — they remain queued, and subsequent polls return them one per
poll. -/
theorem claim_C5_first_drop_read (is_wasm : Bool)
    (fs : String → Except AppError (List Nat)) (input : List DroppedFile)
    (fh : FileHandler) (d : DroppedFile) (ds : List DroppedFile)
    (hu : fh.file_upload = none)
    (hq : (fh.ingest input).dropped_files = d :: ds) :
    FileHandler.handle_files is_wasm fs input fh =
      FileHandler.handle_file_dropped is_wasm fs
        { dropped_files := d :: ds, file_upload := none } ∧
    (FileHandler.handle_files is_wasm fs input fh).2.dropped_files = ds := by
  have h1 : FileHandler.handle_files is_wasm fs input fh =
      FileHandler.handle_file_dropped is_wasm fs
        { dropped_files := d :: ds, file_upload := none } := by
    have h2 : (fh.ingest input).file_upload = none := by
      rw [ingest_file_upload]
      exact hu
    simp only [FileHandler.handle_files, FileHandler.handle_file_upload,
      FileHandler.reset, h2, hq]
  refine ⟨h1, ?_⟩
  rw [h1, handle_file_dropped_state]

/-- Witness for C5: two files dropped at once on the web target; the poll
returns the first and leaves the second queued. -/
theorem claim_C5_first_drop_read_witness :
    FileHandler.handle_files true (fun _ => Except.error (AppError.new "nofs"))
        [ { path := none, name := "a.bin", bytes := some [1] },
          { path := none, name := "b.bin", bytes := some [2] } ]
        FileHandler.new =
      FileHandler.handle_file_dropped true (fun _ => Except.error (AppError.new "nofs"))
        { dropped_files :=
            [ { path := none, name := "a.bin", bytes := some [1] },
              { path := none, name := "b.bin", bytes := some [2] } ],
          file_upload := none } ∧
    (FileHandler.handle_files true (fun _ => Except.error (AppError.new "nofs"))
        [ { path := none, name := "a.bin", bytes := some [1] },
          { path := none, name := "b.bin", bytes := some [2] } ]
        FileHandler.new).2.dropped_files =
      [{ path := none, name := "b.bin", bytes := some [2] }] :=
  claim_C5_first_drop_read true (fun _ => Except.error (AppError.new "nofs"))
    [ { path := none, name := "a.bin", bytes := some [1] },
      { path := none, name := "b.bin", bytes := some [2] } ]
    FileHandler.new
    { path := none, name := "a.bin", bytes := some [1] }
    [{ path := none, name := "b.bin", bytes := some [2] }]
    rfl rfl

/-- Counterexample to C5 as stated: after two files are dropped at once,
the first poll returns the first file, and the very next poll returns the
second file — the additional drop is not discarded, so a later poll does
return it. -/
theorem claim_C5_counterexample :
    (FileHandler.handle_files true (fun _ => Except.error (AppError.new "nofs")) []
        (FileHandler.handle_files true (fun _ => Except.error (AppError.new "nofs"))
          [ { path := none, name := "a.bin", bytes := some [1] },
            { path := none, name := "b.bin", bytes := some [2] } ]
          FileHandler.new).2).1 =
      Except.ok (some { data := [2], path := "b.bin" }) :=
  rfl

/-! ## Claim C6 -/

/-- Claim C6, amended: a frame of Bladvak::update renders the side region
exactly when the host application demands a side panel AND at least one
panel currently has placement AsSideBar — a conjunction, not the
disjunction the claim states. -/
theorem claim_C6_side_region_gating (is_side_panel : Bool) (st : BladvakSavedState) :
    update_shows_side_region is_side_panel st = true ↔
      (is_side_panel = true ∧
        ∃ kv ∈ st.panel_state, kv.2.open_st = PanelOpen.AsSideBar) := by
  unfold update_shows_side_region is_panels_in_sidebar
  cases is_side_panel <;> simp [List.any_eq_true]

/-- Counterexample to C6 as stated: a panel sits in the sidebar, so the
claimed disjunction (some panel AsSideBar, or host demand) holds, yet the
host application does not demand a side region and the frame renders no
side region. -/
theorem claim_C6_counterexample :
    update_shows_side_region false
        { settings := Settings.default,
          panel_state := [("Log", { open_st := PanelOpen.AsSideBar })] } = false ∧
    (is_panels_in_sidebar [("Log", { open_st := PanelOpen.AsSideBar })] || false) = true :=
  ⟨rfl, rfl⟩

/-! ## Helper lemmas: central panel window demotion -/

/-- Visiting a panel with a different name leaves a lookup unchanged. -/
theorem visit_other (closed : String → Bool) (acc : PanelMap) (p : Panel)
    (name : String) (h : p.name ≠ name) :
    btreeGet name (central_panel_visit closed acc p) = btreeGet name acc := by
  unfold central_panel_visit
  repeat' split
  all_goals first
    | rfl
    | exact btreeGet_insert_other name p.name _ acc fun hh => h hh.symm

/-- If the window of this name was not closed this frame, no visit changes
its entry. -/
theorem visit_not_closed (closed : String → Bool) (acc : PanelMap) (p : Panel)
    (name : String) (h : closed name = false) :
    btreeGet name (central_panel_visit closed acc p) = btreeGet name acc := by
  by_cases hpn : p.name = name
  · subst hpn
    unfold central_panel_visit
    repeat' split
    all_goals first | rfl | simp_all
  · exact visit_other closed acc p name hpn

/-- A panel already in the sidebar is never touched by a visit. -/
theorem visit_sidebar_stable (closed : String → Bool) (acc : PanelMap) (p : Panel)
    (name : String) (h : btreeGet name acc = some { open_st := PanelOpen.AsSideBar }) :
    btreeGet name (central_panel_visit closed acc p) =
      some { open_st := PanelOpen.AsSideBar } := by
  by_cases hpn : p.name = name
  · subst hpn
    unfold central_panel_visit
    repeat' split
    all_goals simp_all
  · rw [visit_other closed acc p name hpn]
    exact h

/-- A panel already in the sidebar stays there through the whole loop. -/
theorem fold_sidebar_stable (closed : String → Bool) (l : List Panel) :
    ∀ (acc : PanelMap) (name : String),
      btreeGet name acc = some { open_st := PanelOpen.AsSideBar } →
      btreeGet name (l.foldl (central_panel_visit closed) acc) =
        some { open_st := PanelOpen.AsSideBar } := by
  induction l with
  | nil => intro acc name h; simpa using h
  | cons p rest ih =>
    intro acc name h
    simp only [List.foldl_cons]
    exact ih (central_panel_visit closed acc p) name
      (visit_sidebar_stable closed acc p name h)

/-- Closing the floating window of a has_ui panel that is AsWindows flips
it to AsSideBar by the end of the loop. -/
theorem fold_close_flips (closed : String → Bool) (name : String)
    (hc : closed name = true) (l : List Panel) :
    ∀ (st : PanelMap),
      (∃ p ∈ l, p.name = name ∧ p.has_ui = true) →
      btreeGet name st = some { open_st := PanelOpen.AsWindows } →
      btreeGet name (l.foldl (central_panel_visit closed) st) =
        some { open_st := PanelOpen.AsSideBar } := by
  induction l with
  | nil =>
    intro st hex _
    obtain ⟨p, hp, _⟩ := hex
    exact absurd hp (List.not_mem_nil p)
  | cons q rest ih =>
    intro st hex hw
    simp only [List.foldl_cons]
    by_cases hq : q.name = name ∧ q.has_ui = true
    · have h1 : btreeGet name (central_panel_visit closed st q) =
          some { open_st := PanelOpen.AsSideBar } := by
        unfold central_panel_visit
        rw [hq.1, hq.2, hw]
        simp only [if_true, hc]
        exact btreeGet_insert_self name _ st
      exact fold_sidebar_stable closed rest _ name h1
    · have h1 : btreeGet name (central_panel_visit closed st q) =
          some { open_st := PanelOpen.AsWindows } := by
        by_cases hqn : q.name = name
        · have hqu : q.has_ui = false := by
            cases hb : q.has_ui with
            | true => exact absurd ⟨hqn, hb⟩ hq
            | false => rfl
          unfold central_panel_visit
          rw [hqu]
          simpa using hw
        · rw [visit_other closed st q name hqn]
          exact hw
      obtain ⟨p, hp, hpn, hpu⟩ := hex
      rcases List.mem_cons.mp hp with hpq | hpr
      · exact absurd ⟨hpq ▸ hpn, hpq ▸ hpu⟩ hq
      · exact ih _ ⟨p, hpr, hpn, hpu⟩ h1

/-- A name whose window was not closed keeps its entry through the loop. -/
theorem fold_not_closed (closed : String → Bool) (name : String)
    (h : closed name = false) (l : List Panel) :
    ∀ st : PanelMap,
      btreeGet name (l.foldl (central_panel_visit closed) st) = btreeGet name st := by
  induction l with
  | nil => intro st; rfl
  | cons p rest ih =>
    intro st
    simp only [List.foldl_cons]
    rw [ih (central_panel_visit closed st p)]
    exact visit_not_closed closed st p name h

/-! ## Claim C7 -/

/-- Claim C7: closing the dismissible floating window of a registered
has_ui panel whose placement is AsWindows transitions that panel to
AsSideBar — never to Hidden — while any panel whose window is not closed
keeps its placement unchanged. -/
theorem claim_C7_close_demotes_to_sidebar (panel_list : List Panel)
    (closed : String → Bool) (st : PanelMap) (name : String) :
    ((∃ p ∈ panel_list, p.name = name ∧ p.has_ui = true) →
      btreeGet name st = some { open_st := PanelOpen.AsWindows } →
      closed name = true →
      btreeGet name (central_panel_step panel_list closed st) =
        some { open_st := PanelOpen.AsSideBar }) ∧
    (closed name = false →
      btreeGet name (central_panel_step panel_list closed st) = btreeGet name st) := by
  constructor
  · intro hex hw hc
    exact fold_close_flips closed name hc panel_list st hex hw
  · intro h
    exact fold_not_closed closed name h panel_list st

/-- Witness for C7: closing the Log window demotes Log to the sidebar,
while the untouched Graph window keeps its placement. -/
theorem claim_C7_close_demotes_to_sidebar_witness :
    btreeGet "Log"
        (central_panel_step
          [ { name := "Log", has_ui := true, has_settings := false },
            { name := "Graph", has_ui := true, has_settings := true } ]
          (fun n => decide (n = "Log"))
          [ ("Graph", { open_st := PanelOpen.AsWindows }),
            ("Log", { open_st := PanelOpen.AsWindows }) ]) =
      some { open_st := PanelOpen.AsSideBar } ∧
    btreeGet "Graph"
        (central_panel_step
          [ { name := "Log", has_ui := true, has_settings := false },
            { name := "Graph", has_ui := true, has_settings := true } ]
          (fun n => decide (n = "Log"))
          [ ("Graph", { open_st := PanelOpen.AsWindows }),
            ("Log", { open_st := PanelOpen.AsWindows }) ]) =
      some { open_st := PanelOpen.AsWindows } :=
  ⟨(claim_C7_close_demotes_to_sidebar
      [ { name := "Log", has_ui := true, has_settings := false },
        { name := "Graph", has_ui := true, has_settings := true } ]
      (fun n => decide (n = "Log"))
      [ ("Graph", { open_st := PanelOpen.AsWindows }),
        ("Log", { open_st := PanelOpen.AsWindows }) ]
      "Log").1
      ⟨{ name := "Log", has_ui := true, has_settings := false }, by simp, rfl, rfl⟩
      rfl rfl,
   (claim_C7_close_demotes_to_sidebar
      [ { name := "Log", has_ui := true, has_settings := false },
        { name := "Graph", has_ui := true, has_settings := true } ]
      (fun n => decide (n = "Log"))
      [ ("Graph", { open_st := PanelOpen.AsWindows }),
        ("Log", { open_st := PanelOpen.AsWindows }) ]
      "Graph").2 rfl⟩

end Bladvak
